import Mathlib

/-!
A shallow embedding of `src/app.py` (the "Mood of the Queue" dashboard) and
proofs about its mood-logging, window-query and aggregation behaviour.

Modelling conventions:
* A parsed timestamp (`datetime` / pandas `Timestamp`) is a `DateTime` record of
  calendar components.  Chronological order and day arithmetic are represented
  by `DateTime.toSecs`, the number of seconds since the era origin 0000-03-01
  (Gregorian civil calendar, valid for years ≥ 1, which is exactly the range
  `datetime` admits).  Naive-datetime subtraction and `pd.Timedelta(days=n)`
  are linear on this timeline.
* `pd.to_datetime(s, format="%Y-%m-%d %H:%M:%S", errors="coerce")` is
  `parseTimestamp : String → Option DateTime`; `none` stands for `NaT`.
* A sheet cell is a `String`; a data row of the store is an `Entry`
  (the three-field record produced by `get_all_records` under the fixed header
  `["Timestamp", "Mood", "Note"]`).  A pandas `DataFrame` appearing in the
  queries is a `Frame`: its column list plus its rows, where each row carries
  the (possibly unparseable) timestamp produced by `to_datetime`.
* Fallible remote calls (`gspread` append / read / share) are passed in as
  `Except String _` values; the `.error` case is the raised exception that the
  Python code catches.
-/

namespace MoodQueue

/-- A parsed calendar timestamp, second precision (a naive `datetime`). -/
structure DateTime where
  year : Nat
  month : Nat
  day : Nat
  hour : Nat
  minute : Nat
  sec : Nat
deriving DecidableEq

/-- Gregorian leap-year test. -/
def isLeap (y : Nat) : Bool :=
  (y % 4 == 0 && y % 100 != 0) || y % 400 == 0

/-- Number of days in a month of the Gregorian calendar. -/
def daysInMonth (y m : Nat) : Nat :=
  if m = 2 then (if isLeap y then 29 else 28)
  else if m = 4 ∨ m = 6 ∨ m = 9 ∨ m = 11 then 30
  else 31

/-- Day number of a civil date counted from 0000-03-01 (era-based Gregorian
algorithm; all intermediate quantities are non-negative for year ≥ 1, the
range `datetime` supports).  Monotone in the calendar order, and a difference
of `n` civil days is a difference of `n` here, so it faithfully represents
naive-datetime ordering and `Timedelta` day arithmetic. -/
def daysFromCivil (year month day : Nat) : Nat :=
  let y := if month ≤ 2 then year - 1 else year
  let era := y / 400
  let yoe := y - era * 400
  let doy := (153 * (if month > 2 then month - 3 else month + 9) + 2) / 5 + (day - 1)
  let doe := yoe * 365 + yoe / 4 - yoe / 100 + doy
  era * 146097 + doe

/-- Seconds since the era origin: the linear timeline underlying comparisons
of naive datetimes and `pd.Timedelta` arithmetic. -/
def DateTime.toSecs (t : DateTime) : Nat :=
  daysFromCivil t.year t.month t.day * 86400 + t.hour * 3600 + t.minute * 60 + t.sec

/-- Zero-padded two-digit decimal rendering (strftime `%m`, `%d`, `%H`, `%M`, `%S`). -/
def pad2 (n : Nat) : String :=
  if n < 10 then "0" ++ toString n else toString n

/-- Zero-padded four-digit decimal rendering (strftime `%Y`). -/
def pad4 (n : Nat) : String :=
  if n < 10 then "000" ++ toString n
  else if n < 100 then "00" ++ toString n
  else if n < 1000 then "0" ++ toString n
  else toString n

/-- `strftime("%Y-%m-%d")`. -/
def fmtDate (t : DateTime) : String :=
  pad4 t.year ++ "-" ++ pad2 t.month ++ "-" ++ pad2 t.day

/-- `strftime("%Y-%m-%d %H:%M:%S")`. -/
def fmtDateTime (t : DateTime) : String :=
  fmtDate t ++ " " ++ pad2 t.hour ++ ":" ++ pad2 t.minute ++ ":" ++ pad2 t.sec

/-- Value of a decimal digit character, `none` for a non-digit. -/
def digitVal (c : Char) : Option Nat :=
  if c.isDigit then some (c.toNat - 48) else none

/-- Two decimal digits starting at position `i`. -/
def twoDigits (cs : List Char) (i : Nat) : Option Nat := do
  let a ← digitVal (cs.getD i 'x')
  let b ← digitVal (cs.getD (i + 1) 'x')
  pure (10 * a + b)

/-- Four decimal digits starting at position `i`. -/
def fourDigits (cs : List Char) (i : Nat) : Option Nat := do
  let a ← twoDigits cs i
  let b ← twoDigits cs (i + 2)
  pure (100 * a + b)

/-- The calendar-range validation that the `datetime` constructor performs
(year ≥ 1, month 1-12, real day of month, hour ≤ 23, minute ≤ 59,
second ≤ 59). -/
def validDateTime (t : DateTime) : Bool :=
  decide (1 ≤ t.year) && decide (1 ≤ t.month) && decide (t.month ≤ 12) &&
    decide (1 ≤ t.day) && decide (t.day ≤ daysInMonth t.year t.month) &&
    decide (t.hour ≤ 23) && decide (t.minute ≤ 59) && decide (t.sec ≤ 59)

/-- `pd.to_datetime(s, format="%Y-%m-%d %H:%M:%S", errors="coerce")`:
parse the fixed 19-character format and validate the calendar ranges; any
failure is `none` (`NaT`). -/
def parseTimestamp (s : String) : Option DateTime :=
  let cs := s.toList
  if cs.length == 19 && cs.getD 4 'x' == '-' && cs.getD 7 'x' == '-' &&
      cs.getD 10 'x' == ' ' && cs.getD 13 'x' == ':' && cs.getD 16 'x' == ':' then do
    let year ← fourDigits cs 0
    let month ← twoDigits cs 5
    let day ← twoDigits cs 8
    let hour ← twoDigits cs 11
    let minute ← twoDigits cs 14
    let sec ← twoDigits cs 17
    let t : DateTime := ⟨year, month, day, hour, minute, sec⟩
    if validDateTime t then pure t else none
  else none

/-- The header row written at store creation (`src/app.py` line 51) and, by the
data-model invariant, the column names of every read-back record. -/
def sheetHeader : List String := ["Timestamp", "Mood", "Note"]

/-- One stored data row as returned by `sheet.get_all_records()`:
a record keyed by the three header fields. -/
structure Entry where
  timestamp : String
  mood : String
  note : String
deriving DecidableEq

/-- A row of the query result frame, after the `Timestamp` column has been run
through `to_datetime` (`none` = `NaT`). -/
structure PRow where
  ts : Option DateTime
  mood : String
  note : String
deriving DecidableEq

/-- The effect of `pd.to_datetime` on one record's `Timestamp` field. -/
def parseRow (e : Entry) : PRow :=
  ⟨parseTimestamp e.timestamp, e.mood, e.note⟩

/-- A pandas `DataFrame` as the queries use it: column names plus rows. -/
structure Frame where
  cols : List String
  rows : List PRow
deriving DecidableEq

/-! ## Spreadsheet Gateway (`src/app.py` lines 43-61) -/

/-- `connect_to_sheets`, lines 43-52 (the open-or-create step; credential
resolution precedes it and is not at issue here).  The argument is the remote
state: `some s` when `client.open(spreadsheet_name)` succeeds with sheet
content `s`, `none` when it raises `SpreadsheetNotFound`.  On `none` the code
creates the spreadsheet and appends the header row, so the fresh sheet content
is `[sheetHeader]`.  Note the returned flag: `True` on the open path (line 46),
`False` on the create path (line 52); `main` (line 229) binds it as
`is_existing`. -/
def connect_to_sheets (store : Option (List (List String))) : List (List String) × Bool :=
  match store with
  | some sheet => (sheet, true)
  | none => ([sheetHeader], false)

/-- `share_spreadsheet`, lines 54-61.  `shareRes` is the outcome of the remote
`spreadsheet.share` call (`.error e` = the exception the code catches).  The
guard embeds `if email and '@' in email:` (Python string truthiness =
non-emptiness). -/
def share_spreadsheet (shareRes : Except String Unit) (email : String) :
    Bool × Option String :=
  if !email.toList.isEmpty && email.toList.contains '@' then
    match shareRes with
    | .ok _ => (true, none)
    | .error e => (false, some e)
  else
    (false, some "Invalid email format")

/-- The condition under which `share_spreadsheet` reaches the
`spreadsheet.share(...)` call at line 57 (i.e. makes a grant attempt). -/
def share_attempted (email : String) : Bool :=
  !email.toList.isEmpty && email.toList.contains '@'

/-- The `mood` argument of `log_mood`: the caller passes either a string or
some non-string value, which `str(mood)` renders as text. -/
inductive MoodArg where
  | str : String → MoodArg
  | nonStr : String → MoodArg
deriving DecidableEq

/-- `str(mood)` when `mood` is not a string, identity on strings
(lines 69-70). -/
def MoodArg.toText : MoodArg → String
  | .str s => s
  | .nonStr r => r

/-- `log_mood`, lines 63-82.  `append` is the outcome of the remote
`sheet.append_row` call; `now` is the clock reading at line 65 and `now2` the
reading in the exception handler at line 82.  The UTF-8 encode/decode round
trip at lines 72-73 is the identity on (valid-Unicode) strings.  Returns the
sheet content after the call together with the Python return triple
`(timestamp, success, error)`. -/
def log_mood (append : Except String Unit) (now now2 : DateTime)
    (sheet : List (List String)) (mood : MoodArg) (note : String) :
    List (List String) × String × Bool × Option String :=
  let timestamp := fmtDateTime now
  let moodText := mood.toText
  match append with
  | .ok _ => (sheet ++ [[timestamp, moodText, note]], timestamp, true, none)
  | .error e => (sheet, fmtDateTime now2, false, some e)

/-! ## Time-Window Query (`src/app.py` lines 84-123) -/

/-- `get_today_data`, lines 84-101.  `res` is the outcome of
`sheet.get_all_records()` (`.error` = the exception caught at line 98).  The
`"Timestamp" in df.columns` test at line 90 is true whenever the frame is
non-empty, because the store's header row is fixed (`sheetHeader`).  Returns
the resulting frame together with the `st.error` message, if one was shown. -/
def get_today_data (res : Except String (List Entry)) (now : DateTime) :
    Frame × Option String :=
  match res with
  | .error e => (⟨sheetHeader, []⟩, some ("Error fetching data: " ++ e))
  | .ok data =>
    let df := data.map parseRow
    if df.isEmpty then (⟨sheetHeader, []⟩, none)
    else
      (⟨sheetHeader,
        df.filter (fun r =>
          match r.ts with
          | some t => decide (fmtDate t = fmtDate now)
          | none => false)⟩, none)

/-- `get_data_for_period`, lines 103-123.  For `days > 0` the filter keeps rows
with `Timestamp >= datetime.now() - pd.Timedelta(days=days)` (line 113; `NaT`
compares false); `cutoff_date` is represented by its position
`now.toSecs - days * 86400` on the seconds timeline.  For `days ≤ 0` it runs
the same calendar-date comparison as `get_today_data` (lines 115-116). -/
def get_data_for_period (res : Except String (List Entry)) (days : Int)
    (now : DateTime) : Frame × Option String :=
  match res with
  | .error e => (⟨sheetHeader, []⟩, some ("Error fetching data: " ++ e))
  | .ok data =>
    let df := data.map parseRow
    if df.isEmpty then (⟨sheetHeader, []⟩, none)
    else if days > 0 then
      (⟨sheetHeader,
        df.filter (fun r =>
          match r.ts with
          | some t => decide ((now.toSecs : Int) - days * 86400 ≤ (t.toSecs : Int))
          | none => false)⟩, none)
    else
      (⟨sheetHeader,
        df.filter (fun r =>
          match r.ts with
          | some t => decide (fmtDate t = fmtDate now)
          | none => false)⟩, none)

/-! ## Aggregator (`src/app.py` lines 125-147) -/

/-- A `datetime.date` value (`data['Timestamp'].dt.date`, line 129). -/
abbrev DateKey := Nat × Nat × Nat

/-- The `Date` column value of a row: its calendar date, `none` for `NaT`
(pandas `groupby` drops null keys). -/
def PRow.dateKey (r : PRow) : Option DateKey :=
  r.ts.map (fun t => (t.year, t.month, t.day))

/-- Number of rows with the given mood: one count of
`data["Mood"].value_counts()` (line 146). -/
def moodCount (rows : List PRow) (m : String) : Nat :=
  (rows.filter (fun r => decide (r.mood = m))).length

/-- The ungrouped aggregation result as a set of `(mood, count)` pairs:
`value_counts` tabulates each distinct mood with its frequency. -/
def ungroupedAgg (rows : List PRow) : Finset (String × Nat) :=
  ((rows.map (fun r => r.mood)).toFinset).image (fun m => (m, moodCount rows m))

/-- Number of rows with the given date and mood: one count of
`data.groupby(['Date', 'Mood']).size()` (line 130). -/
def dayMoodCount (rows : List PRow) (d : DateKey) (m : String) : Nat :=
  (rows.filter (fun r => decide (r.dateKey = some d) && decide (r.mood = m))).length

/-- The grouped-by-day aggregation result as a set of `(date, mood, count)`
triples: `groupby` tabulates each `(Date, Mood)` key present among the rows
(null dates dropped) with its group size. -/
def groupedAgg (rows : List PRow) : Finset (DateKey × String × Nat) :=
  ((rows.filterMap (fun r => r.dateKey.map (fun d => (d, r.mood)))).toFinset).image
    (fun p => (p.1, p.2, dayMoodCount rows p.1 p.2))

/-! ## Interactive Shell fragments (`src/app.py` lines 323-333) -/

/-- The option list of the time-period selectbox, lines 325-330. -/
def time_period_options : List (String × Int) :=
  [("Today", 0), ("Last 3 days", 3), ("Last 7 days", 7), ("Last 30 days", 30)]

/-! ## Concrete sample values used to instantiate the theorems -/

/-- A sample "current time": 2024-01-10 00:00:00. -/
def cNow : DateTime := ⟨2024, 1, 10, 0, 0, 0⟩

/-- A stored row stamped three weeks after `cNow`. -/
def cFutureEntry : Entry := ⟨"2024-02-01 00:00:00", "😊", ""⟩

/-- A stored row stamped within the trailing 7 days of `cNow`. -/
def cWindowEntry : Entry := ⟨"2024-01-08 12:00:00", "😊", ""⟩

/-- Sample filtered rows (from the spec's aggregation example). -/
def cRow1 : PRow := ⟨some ⟨2024, 1, 1, 9, 0, 0⟩, "😊", ""⟩

/-- A second sample filtered row. -/
def cRow2 : PRow := ⟨some ⟨2024, 1, 1, 9, 30, 0⟩, "😠", "slow"⟩

/-! ## Theorems -/

/-- Claim C2, counterexample: with the store absent, `connect_to_sheets`
creates it and writes the header row, yet returns `false` — refuting the
claim that the returned flag is true when (and only when) this call created
the store. -/
theorem C2_counterexample :
    (connect_to_sheets none).1 = [["Timestamp", "Mood", "Note"]] ∧
    (connect_to_sheets none).2 = false :=
  ⟨rfl, rfl⟩

/-- Claim C2, amended: the boolean returned by `connect_to_sheets` is true iff
the named store already existed; when it is absent the call creates it, writes
the header row, and returns `false`.  (This matches `main`'s own reading of
the flag as `is_existing`, line 229.) -/
theorem C2_flag_is_existing (store : Option (List (List String))) :
    (connect_to_sheets store).2 = store.isSome ∧
    (connect_to_sheets store).1 = store.getD [sheetHeader] := by
  cases store <;> exact ⟨rfl, rfl⟩

/-- Claim C3: `log_mood` stamps the current local time rendered as
`YYYY-MM-DD HH:MM:SS` (`fmtDateTime`), coerces a non-string mood to its text
form (`MoodArg.toText`), and returns the stamp, a success flag and an optional
error; on success exactly one row `[stamp, mood, note]` is appended, on
failure the sheet is unchanged. -/
theorem C3_log_mood (now now2 : DateTime) (sheet : List (List String))
    (mood : MoodArg) (note : String) :
    (log_mood (.ok ()) now now2 sheet mood note =
        (sheet ++ [[fmtDateTime now, mood.toText, note]], fmtDateTime now, true, none) ∧
      (log_mood (.ok ()) now now2 sheet mood note).1.length = sheet.length + 1) ∧
    ∀ e, log_mood (.error e) now now2 sheet mood note =
        (sheet, fmtDateTime now2, false, some e) := by
  refine ⟨⟨rfl, ?_⟩, fun e => rfl⟩
  simp [log_mood]

/-- Claim C8, counterexample: the time-window selector has only four options
and offers no "Last 90 days" entry, refuting the claimed five-option list. -/
theorem C8_counterexample :
    ("Last 90 days", (90 : Int)) ∉ time_period_options ∧
    time_period_options.length = 4 := by
  decide

/-- Claim C8, amended: the Shell's time-window selector offers exactly the
options today, last 3 days, last 7 days and last 30 days (no 90-day option). -/
theorem C8_selector_options :
    time_period_options.map Prod.fst =
      ["Today", "Last 3 days", "Last 7 days", "Last 30 days"] ∧
    time_period_options.map Prod.snd = [0, 3, 7, 30] := by
  decide

/-- Claim C9: when the identifier contains no "@" (including the empty
string), `share_spreadsheet` returns failure with a message and makes no grant
attempt; otherwise it returns the grant outcome as a flag plus optional
message.  It is a total function of the grant outcome, so a failed share never
escapes as an exception. -/
theorem C9_share_spec (shareRes : Except String Unit) (email : String) :
    (email.toList.contains '@' = false →
      share_spreadsheet shareRes email = (false, some "Invalid email format") ∧
        share_attempted email = false) ∧
    (email.toList.contains '@' = true →
      share_spreadsheet shareRes email =
        match shareRes with
        | .ok _ => (true, none)
        | .error e => (false, some e)) := by
  constructor
  · intro h
    unfold share_spreadsheet share_attempted
    rw [h]
    simp
  · intro h
    have hne : email.toList.isEmpty = false := by
      cases hl : email.toList with
      | nil => rw [hl] at h; exact absurd h (by decide)
      | cons a l => rfl
    unfold share_spreadsheet
    rw [h, hne]
    simp

/-- Claim C9, witness: a concrete identifier without "@". -/
theorem C9_share_witness :
    share_spreadsheet (.ok ()) "bob" = (false, some "Invalid email format") ∧
    share_attempted "bob" = false :=
  (C9_share_spec (.ok ()) "bob").1 (by decide)

/-- Claim C10: with the same read result and the same current time,
`get_data_for_period` with `days = 0` returns exactly the result of
`get_today_data` — the two independently written today-filters coincide. -/
theorem C10_days0_eq_today (res : Except String (List Entry)) (now : DateTime) :
    get_data_for_period res 0 now = get_today_data res now := by
  cases res with
  | error e => rfl
  | ok data =>
    simp only [get_data_for_period, get_today_data]
    simp [lt_irrefl]

/-- Claim C1, counterexample: the `days > 0` filter has no upper bound.  A
stored row stamped 2024-02-01, three weeks after `now` = 2024-01-10, is
returned by the 7-day window query even though its timestamp is past `now` —
refuting "every returned row's timestamp is ... at most now". -/
theorem C1_counterexample :
    (parseRow cFutureEntry).ts = some ⟨2024, 2, 1, 0, 0, 0⟩ ∧
    cNow.toSecs < DateTime.toSecs ⟨2024, 2, 1, 0, 0, 0⟩ ∧
    parseRow cFutureEntry ∈ (get_data_for_period (.ok [cFutureEntry]) 7 cNow).1.rows := by
  refine ⟨by decide, by decide, ?_⟩
  decide

/-- Claim C1, amended: for `days = N > 0` the window query returns exactly the
stored rows whose timestamp parses and is at least `now - N days`
(`now.toSecs - N * 86400` on the seconds timeline); there is no upper bound,
so rows stamped after `now` are also returned. -/
theorem C1_period_window (data : List Entry) (now : DateTime) (days : Int)
    (hd : 0 < days) (r : PRow) :
    r ∈ (get_data_for_period (.ok data) days now).1.rows ↔
      r ∈ data.map parseRow ∧
        ∃ t, r.ts = some t ∧ (now.toSecs : Int) - days * 86400 ≤ (t.toSecs : Int) := by
  by_cases he : (data.map parseRow).isEmpty
  · have h0 : data.map parseRow = [] := by
      cases hm : data.map parseRow with
      | nil => rfl
      | cons a l => rw [hm] at he; exact absurd he (by simp)
    simp [get_data_for_period, he, h0]
  · simp only [get_data_for_period, he, Bool.false_eq_true, if_false, hd, gt_iff_lt, if_true]
    rw [List.mem_filter]
    cases hts : r.ts with
    | none => simp [hts]
    | some t => simp [hts]

/-- Claim C1, witness: a row stamped 2024-01-08 12:00:00 lies inside the
7-day window ending at `cNow` and the amended characterization applies to
it. -/
theorem C1_period_window_witness :
    (0 : Int) < 7 ∧
    (parseRow cWindowEntry ∈ (get_data_for_period (.ok [cWindowEntry]) 7 cNow).1.rows ↔
      parseRow cWindowEntry ∈ [cWindowEntry].map parseRow ∧
        ∃ t, (parseRow cWindowEntry).ts = some t ∧
          (cNow.toSecs : Int) - 7 * 86400 ≤ (t.toSecs : Int)) :=
  ⟨by decide, C1_period_window [cWindowEntry] cNow 7 (by decide) (parseRow cWindowEntry)⟩

/-- Claim C4: a stored row whose `Timestamp` field does not parse becomes
`NaT` and is excluded by every window filter: every row in the result of
either query has a parsed timestamp.  Both queries are total functions, so a
malformed row never raises. -/
theorem C4_malformed_excluded (res : Except String (List Entry)) (now : DateTime)
    (days : Int) :
    ((get_today_data res now).1.rows.all fun r => r.ts.isSome) = true ∧
    ((get_data_for_period res days now).1.rows.all fun r => r.ts.isSome) = true := by
  have key : ∀ (df : List PRow) (p : DateTime → Bool),
      ((df.filter fun r =>
        match r.ts with
        | some t => p t
        | none => false).all fun r => r.ts.isSome) = true := by
    intro df p
    rw [List.all_eq_true]
    intro r hr
    have hp := (List.mem_filter.mp hr).2
    cases hts : r.ts with
    | none => rw [hts] at hp; exact absurd hp (by simp)
    | some t => simp [hts]
  constructor
  · cases res with
    | error e => rfl
    | ok data =>
      simp only [get_today_data]
      by_cases he : (data.map parseRow).isEmpty
      · simp [he]
      · simpa [he] using key (data.map parseRow) (fun t => decide (fmtDate t = fmtDate now))
  · cases res with
    | error e => rfl
    | ok data =>
      simp only [get_data_for_period]
      by_cases he : (data.map parseRow).isEmpty
      · simp [he]
      · by_cases hd : days > 0
        · simpa [he, hd] using key (data.map parseRow)
            (fun t => decide ((now.toSecs : Int) - days * 86400 ≤ (t.toSecs : Int)))
        · simpa [he, hd] using key (data.map parseRow)
            (fun t => decide (fmtDate t = fmtDate now))

/-- Claim C5: both queries always return a frame with exactly the three
columns `Timestamp, Mood, Note`; a failed read yields zero rows plus the
user-visible error message; an empty store yields zero rows and no error; and
on any successful read the rows are a sublist of the parsed input (so a window
that filters everything out yields the same correctly-shaped empty frame).
Both queries are total, never failing the caller. -/
theorem C5_query_shape (res : Except String (List Entry)) (now : DateTime)
    (days : Int) :
    ((get_today_data res now).1.cols = sheetHeader ∧
      (get_data_for_period res days now).1.cols = sheetHeader) ∧
    (∀ e, res = .error e →
      get_today_data res now = (⟨sheetHeader, []⟩, some ("Error fetching data: " ++ e)) ∧
      get_data_for_period res days now =
        (⟨sheetHeader, []⟩, some ("Error fetching data: " ++ e))) ∧
    (res = .ok [] →
      get_today_data res now = (⟨sheetHeader, []⟩, none) ∧
      get_data_for_period res days now = (⟨sheetHeader, []⟩, none)) ∧
    (∀ data, res = .ok data →
      (get_today_data res now).1.rows.Sublist (data.map parseRow) ∧
      (get_data_for_period res days now).1.rows.Sublist (data.map parseRow)) := by
  refine ⟨?_, ?_, ?_, ?_⟩
  · constructor
    · cases res with
      | error e => rfl
      | ok data =>
        simp only [get_today_data]
        by_cases he : (data.map parseRow).isEmpty <;> simp [he]
    · cases res with
      | error e => rfl
      | ok data =>
        simp only [get_data_for_period]
        by_cases he : (data.map parseRow).isEmpty
        · simp [he]
        · by_cases hd : days > 0 <;> simp [he, hd]
  · rintro e rfl
    exact ⟨rfl, rfl⟩
  · rintro rfl
    exact ⟨rfl, rfl⟩
  · rintro data rfl
    constructor
    · simp only [get_today_data]
      by_cases he : (data.map parseRow).isEmpty
      · simp [he, List.nil_sublist]
      · simp only [he, Bool.false_eq_true, if_false]
        exact List.filter_sublist _
    · simp only [get_data_for_period]
      by_cases he : (data.map parseRow).isEmpty
      · simp [he, List.nil_sublist]
      · by_cases hd : days > 0
        · simp only [he, hd, Bool.false_eq_true, if_false, if_true]
          exact List.filter_sublist _
        · simp only [he, hd, Bool.false_eq_true, if_false]
          exact List.filter_sublist _

/-- Claim C5, witness: the shape guarantee at concrete inputs — an empty
store and a failed read. -/
theorem C5_query_shape_witness :
    get_today_data (.ok []) cNow = (⟨sheetHeader, []⟩, none) ∧
    get_data_for_period (.error "boom") 3 cNow =
      (⟨sheetHeader, []⟩, some ("Error fetching data: " ++ "boom")) :=
  ⟨((C5_query_shape (.ok []) cNow 3).2.2.1 rfl).1,
   ((C5_query_shape (.error "boom") cNow 3).2.1 "boom" rfl).2⟩

/-- Claim C6: both aggregations are order-independent — permuting the input
rows leaves the set of `(mood, count)` pairs and the set of
`(date, mood, count)` triples unchanged. -/
theorem C6_agg_perm (l1 l2 : List PRow) (h : l1.Perm l2) :
    ungroupedAgg l1 = ungroupedAgg l2 ∧ groupedAgg l1 = groupedAgg l2 := by
  have hcnt : ∀ (p : PRow → Bool), (l1.filter p).length = (l2.filter p).length :=
    fun p => (h.filter p).length_eq
  constructor
  · unfold ungroupedAgg
    rw [List.toFinset_eq_of_perm _ _ (h.map fun r => r.mood)]
    have hfun : (fun m => (m, moodCount l1 m)) = fun m => (m, moodCount l2 m) := by
      funext m
      unfold moodCount
      rw [hcnt]
    rw [hfun]
  · unfold groupedAgg
    rw [List.toFinset_eq_of_perm _ _
      (h.filterMap fun r => r.dateKey.map fun dk => (dk, r.mood))]
    have hfun : (fun p : DateKey × String => (p.1, p.2, dayMoodCount l1 p.1 p.2)) =
        fun p => (p.1, p.2, dayMoodCount l2 p.1 p.2) := by
      funext p
      unfold dayMoodCount
      rw [hcnt]
    rw [hfun]

/-- Claim C6, witness: swapping the two sample rows leaves both aggregation
results unchanged. -/
theorem C6_agg_perm_witness :
    ([cRow1, cRow2].Perm [cRow2, cRow1]) ∧
    (ungroupedAgg [cRow1, cRow2] = ungroupedAgg [cRow2, cRow1] ∧
      groupedAgg [cRow1, cRow2] = groupedAgg [cRow2, cRow1]) :=
  ⟨List.Perm.swap cRow2 cRow1 [], C6_agg_perm _ _ (List.Perm.swap cRow2 cRow1 [])⟩

/-- Claim C7: for any date `d`, summing the counts of the grouped-by-day
triples whose date is `d` gives the same total as the ungrouped per-mood
aggregation applied to just the rows dated `d`. -/
theorem C7_grouped_sum (rows : List PRow) (d : DateKey) :
    ∑ t ∈ (groupedAgg rows).filter (fun t => t.1 = d), t.2.2 =
      ∑ p ∈ ungroupedAgg (rows.filter fun r => decide (r.dateKey = some d)), p.2 := by
  set S := rows.filter (fun r => decide (r.dateKey = some d)) with hS
  set M := (S.map fun r => r.mood).toFinset with hM
  -- the ungrouped total over the date-`d` rows, indexed by their moods
  have hRHS : ∑ p ∈ ungroupedAgg S, p.2 = ∑ m ∈ M, moodCount S m := by
    unfold ungroupedAgg
    rw [← hM, Finset.sum_image]
    intro x _ y _ hxy
    exact congrArg Prod.fst hxy
  -- each grouped count at date `d` is an ungrouped count over the `d` rows
  have hcount : ∀ m, dayMoodCount rows d m = moodCount S m := by
    intro m
    unfold dayMoodCount moodCount
    rw [hS, List.filter_filter]
    congr 1
    apply List.filter_congr
    intro r _
    exact Bool.and_comm _ _
  -- the `(d, m)` keys of the grouped output are exactly the moods of the `d` rows
  have hK : ((rows.filterMap fun r => r.dateKey.map fun dk => (dk, r.mood)).toFinset.filter
        fun a : DateKey × String => a.1 = d) = M.image (fun m => (d, m)) := by
    ext p
    obtain ⟨d', m⟩ := p
    simp only [Finset.mem_filter, List.mem_toFinset, List.mem_filterMap, Finset.mem_image,
      List.mem_map, hM, hS, List.mem_filter, Option.map_eq_some', decide_eq_true_eq,
      Prod.mk.injEq]
    constructor
    · rintro ⟨⟨r, hr, dk, hdk, rfl, rfl⟩, rfl⟩
      exact ⟨r.mood, ⟨r, ⟨hr, hdk⟩, rfl⟩, rfl, rfl⟩
    · rintro ⟨m', ⟨r, ⟨hr, hdk⟩, rfl⟩, rfl, rfl⟩
      exact ⟨⟨r, hr, d, hdk, rfl, rfl⟩, rfl⟩
  calc ∑ t ∈ (groupedAgg rows).filter (fun t => t.1 = d), t.2.2
      = ∑ a ∈ ((rows.filterMap fun r => r.dateKey.map fun dk => (dk, r.mood)).toFinset.filter
          fun a : DateKey × String => a.1 = d), dayMoodCount rows a.1 a.2 := by
        unfold groupedAgg
        rw [Finset.filter_image]
        rw [Finset.sum_image]
        intro x _ y _ hxy
        have h1 := congrArg Prod.fst hxy
        have h2 := congrArg (fun t : DateKey × String × Nat => t.2.1) hxy
        exact Prod.ext h1 h2
    _ = ∑ a ∈ M.image (fun m => (d, m)), dayMoodCount rows a.1 a.2 := by rw [hK]
    _ = ∑ m ∈ M, dayMoodCount rows d m := by
        rw [Finset.sum_image]
        intro x _ y _ hxy
        have h2 := congrArg Prod.snd hxy
        exact h2
    _ = ∑ m ∈ M, moodCount S m := by
        apply Finset.sum_congr rfl
        intro m _
        exact hcount m
    _ = ∑ p ∈ ungroupedAgg S, p.2 := hRHS.symm

end MoodQueue
